import Mathlib

/-!
# UART SCB loopback self-test harness (`main.c`)

A shallow embedding of `main` and `SelfTest_UART_SCB_Init` of `main.c`.

* Every call into the PDL / BSP / self-test library is recorded as an `Event` in a log
  kept in the state, most recent call first.
* What those calls return is not decided by `main.c`; it is supplied by an `Env`
  (status codes of the hardware calls, the verdict of the diagnostic engine per loop
  iteration, and the header constants the results are compared with).
* `main` never returns.  `mainInit` is the code before the `for (;;)`, `loopBody` is one
  pass through the loop body, and `run env k` is the state after `k` passes.  A halted
  program (`CY_ASSERT(0)` or the `while (1);` of the error branch) stays in its state.
-/

namespace UartLoopback

/-! ## Data model -/

/-- The macro `MAX_INDEX_VAL` (main.c line 55). -/
def MAX_INDEX_VAL : Nat := 0xFFF0

/-- The two SCB blocks `main.c` talks to: the console UART and the UART under test. -/
inductive Hw
  | CYBSP_UART_HW
  | CYBSP_DUT_UART_HW
deriving DecidableEq, Repr

/-- The mask argument of `Cy_SmartIO_SetChBypass` as written at the call site: the local
`bypassMask` (a literal) or one of the two PDL macros, whose values are not part of
`main.c`. -/
inductive Mask
  | lit (v : Nat)
  | CY_SMARTIO_CHANNEL_NONE
  | CY_SMARTIO_CHANNEL_ALL
deriving DecidableEq, Repr

/-- One call made by `main.c` into the BSP, the PDL or the self-test library. -/
inductive Event
  | cybsp_init
  | enable_irq
  | Cy_SCB_UART_Init (hw : Hw)
  | Cy_SCB_UART_Enable (hw : Hw)
  | Cy_SCB_UART_PutString (hw : Hw) (s : String)
  | Cy_SmartIO_Init
  | Cy_SmartIO_Enable
  | Cy_SmartIO_Disable
  | Cy_SmartIO_SetChBypass (m : Mask)
  | Cy_SysLib_DelayUs (us : Nat)
  | Cy_SCB_UART_ClearRxFifo (hw : Hw)
  | Cy_SCB_UART_ClearTxFifo (hw : Hw)
  | Cy_SCB_UART_StopRingBuffer (hw : Hw)
  | Cy_SCB_UART_AbortReceive (hw : Hw)
  | Cy_SCB_UART_AbortTransmit (hw : Hw)
  | SelfTest_UART_SCB (hw : Hw)
deriving DecidableEq, Repr

/-- Everything `main.c` takes from outside: the header constants it compares results with
and the values the external calls return.  The per-iteration fields are indexed by the
number of the loop pass (0 for the first pass). -/
structure Env where
  CY_RSLT_SUCCESS : Nat
  CY_SCB_UART_SUCCESS : Nat
  CY_SMARTIO_SUCCESS : Nat
  PASS_COMPLETE_STATUS : Nat
  PASS_STILL_TESTING_STATUS : Nat
  /-- Result of `cybsp_init()` (line 108). -/
  cybsp_init : Nat
  /-- Result of `Cy_SCB_UART_Init` on the UART under test (line 237). -/
  Cy_SCB_UART_Init_DUT : Nat
  /-- Result of `Cy_SmartIO_Init` (line 129). -/
  Cy_SmartIO_Init : Nat
  /-- Result of the `Cy_SmartIO_SetChBypass` call of line 141. -/
  SetChBypass_init : Nat
  /-- Result of the `Cy_SmartIO_SetChBypass` call of line 163 in loop pass `i`. -/
  SetChBypass_loopback : Nat → Nat
  /-- Result of the `Cy_SmartIO_SetChBypass` call of line 181 in loop pass `i`. -/
  SetChBypass_bypass : Nat → Nat
  /-- Value returned by `SelfTest_UART_SCB` (line 177) in loop pass `i`. -/
  SelfTest_UART_SCB : Nat → Nat

/-- Where the program is: still executing, stopped in a `CY_ASSERT(0)`, or spinning in the
`while (1);` after the error text (line 197). -/
inductive Status
  | running
  | asserted
  | failed
deriving DecidableEq, Repr

/-- The variables of `main` that matter (`count`, `ret`, the global `uart_print_buff`),
the log of external calls (most recent first) and the halt status. -/
structure State where
  count : Nat
  ret : Nat
  uart_print_buff : String
  log : List Event
  status : Status

/-! ## The program -/

/-- Record one external call. -/
def call (e : Event) (st : State) : State :=
  { st with log := e :: st.log }

/-- Modelled from the spec: the macro `CY_ASSERT` comes from the PDL headers, which are not
in the repository.  The spec (sections 4.1, 4.4 and 7) takes every bring-up or transition
error to be fatal and to halt the process at once, so `CY_ASSERT(0)` stops the program. -/
def CY_ASSERT_0 (st : State) : State :=
  { st with status := Status.asserted }

/-- The `while (1);` of line 197. -/
def spinForever (st : State) : State :=
  { st with status := Status.failed }

/-- The text of the error branch (line 196). -/
def errorText : String := "\r\nUART SCB test: error "

/-- The format string of line 201 up to the `%d`. -/
def progressFormat : String := "\rUART SCB loopback testing using Smart-IO... count="

/-- What `sprintf(uart_print_buff, "...count=%d", count)` writes (without the final NUL):
`count` is a `uint16_t`, promoted to `int`, printed in decimal. -/
def sprintf_count (count : Nat) : String :=
  progressFormat ++ Nat.repr count

/-- The counter update `count++; if (count > MAX_INDEX_VAL) count = 0u;` of lines 204 to
208, on a `uint16_t` (arithmetic modulo `2 ^ 16 = 65536`). -/
def incrementCount (count : Nat) : Nat :=
  let c := (count + 1) % 65536
  if c > MAX_INDEX_VAL then 0 else c

/-- The function `SelfTest_UART_SCB_Init` (lines 231 to 250). -/
def SelfTest_UART_SCB_Init (env : Env) (st : State) : State :=
  let st := call (Event.Cy_SCB_UART_Init Hw.CYBSP_DUT_UART_HW) st
  if env.Cy_SCB_UART_Init_DUT ≠ env.CY_SCB_UART_SUCCESS then CY_ASSERT_0 st else
  let st := call (Event.Cy_SCB_UART_Enable Hw.CYBSP_DUT_UART_HW) st
  let st := call (Event.Cy_SCB_UART_ClearRxFifo Hw.CYBSP_DUT_UART_HW) st
  call (Event.Cy_SCB_UART_ClearTxFifo Hw.CYBSP_DUT_UART_HW) st

/-- The state in which `main` starts: `count = 0u` (line 101), nothing called yet. -/
def start : State :=
  { count := 0, ret := 0, uart_print_buff := "", log := [], status := Status.running }

/-- The code of `main` before the loop (lines 98 to 151). -/
def mainInit (env : Env) : State :=
  let st := call Event.cybsp_init start
  if env.cybsp_init ≠ env.CY_RSLT_SUCCESS then CY_ASSERT_0 st else
  let st := call Event.enable_irq st
  let st := call (Event.Cy_SCB_UART_Init Hw.CYBSP_UART_HW) st
  let st := call (Event.Cy_SCB_UART_Enable Hw.CYBSP_UART_HW) st
  let st := call (Event.Cy_SCB_UART_PutString Hw.CYBSP_UART_HW "\x1b[2J\x1b[;H") st
  let st := call (Event.Cy_SCB_UART_PutString Hw.CYBSP_UART_HW
    "\r\nClass-B Safety Test: UART Loopback\r\n") st
  let st := SelfTest_UART_SCB_Init env st
  if st.status ≠ Status.running then st else
  let st := call Event.Cy_SmartIO_Init st
  if env.CY_SMARTIO_SUCCESS ≠ env.Cy_SmartIO_Init then CY_ASSERT_0 st else
  let st := call Event.Cy_SmartIO_Enable st
  let bypassMask := Mask.lit 0xFF
  let st := call Event.Cy_SmartIO_Disable st
  let st := call (Event.Cy_SmartIO_SetChBypass bypassMask) st
  if env.SetChBypass_init ≠ env.CY_SMARTIO_SUCCESS then CY_ASSERT_0 st else
  let st := call Event.Cy_SmartIO_Enable st
  let st := call (Event.Cy_SysLib_DelayUs 100) st
  let st := call (Event.Cy_SCB_UART_ClearRxFifo Hw.CYBSP_DUT_UART_HW) st
  call (Event.Cy_SCB_UART_ClearTxFifo Hw.CYBSP_DUT_UART_HW) st

/-- The first part of the loop body, lines 157 to 191 of pass `i`: quiesce the UART under
test, switch to loopback, run the engine, switch back to bypass.  `ret` is a `uint8_t`, so
the value of the engine is stored modulo `2 ^ 8 = 256`. -/
def loopTest (env : Env) (i : Nat) (st : State) : State :=
  let st := call (Event.Cy_SCB_UART_StopRingBuffer Hw.CYBSP_DUT_UART_HW) st
  let st := call (Event.Cy_SCB_UART_AbortReceive Hw.CYBSP_DUT_UART_HW) st
  let st := call (Event.Cy_SCB_UART_AbortTransmit Hw.CYBSP_DUT_UART_HW) st
  let st := call Event.Cy_SmartIO_Disable st
  let st := call (Event.Cy_SmartIO_SetChBypass Mask.CY_SMARTIO_CHANNEL_NONE) st
  if env.SetChBypass_loopback i ≠ env.CY_SMARTIO_SUCCESS then CY_ASSERT_0 st else
  let st := call Event.Cy_SmartIO_Enable st
  let st := call (Event.Cy_SCB_UART_ClearRxFifo Hw.CYBSP_DUT_UART_HW) st
  let st := call (Event.Cy_SCB_UART_ClearTxFifo Hw.CYBSP_DUT_UART_HW) st
  let st := call (Event.SelfTest_UART_SCB Hw.CYBSP_DUT_UART_HW) st
  let st := { st with ret := env.SelfTest_UART_SCB i % 256 }
  let st := call Event.Cy_SmartIO_Disable st
  let st := call (Event.Cy_SmartIO_SetChBypass Mask.CY_SMARTIO_CHANNEL_ALL) st
  if env.SetChBypass_bypass i ≠ env.CY_SMARTIO_SUCCESS then CY_ASSERT_0 st else
  let st := call Event.Cy_SmartIO_Enable st
  let st := call (Event.Cy_SysLib_DelayUs 100) st
  let st := call (Event.Cy_SCB_UART_ClearRxFifo Hw.CYBSP_DUT_UART_HW) st
  call (Event.Cy_SCB_UART_ClearTxFifo Hw.CYBSP_DUT_UART_HW) st

/-- The second part of the loop body, lines 193 to 208: classify `ret`, then either print
the error text and spin, or print the progress line and update the counter. -/
def classify (env : Env) (st : State) : State :=
  if env.PASS_COMPLETE_STATUS ≠ st.ret ∧ env.PASS_STILL_TESTING_STATUS ≠ st.ret then
    let st := call (Event.Cy_SCB_UART_PutString Hw.CYBSP_UART_HW errorText) st
    spinForever st
  else
    let st := { st with uart_print_buff := sprintf_count st.count }
    let st := call (Event.Cy_SCB_UART_PutString Hw.CYBSP_UART_HW st.uart_print_buff) st
    { st with count := incrementCount st.count }

/-- One pass through the body of `for (;;)` (lines 153 to 210), pass number `i`.  A halted
program does nothing more. -/
def loopBody (env : Env) (i : Nat) (st : State) : State :=
  if st.status ≠ Status.running then st else
  let st := loopTest env i st
  if st.status ≠ Status.running then st else
  classify env st

/-- The state of `main` after `k` passes through the loop body. -/
def run (env : Env) : Nat → State
  | 0 => mainInit env
  | k + 1 => loopBody env k (run env k)

/-! ## Reading the log -/

/-- The mask of the most recent `Cy_SmartIO_SetChBypass` call in a log. -/
def lastMask : List Event → Option Mask
  | [] => none
  | Event.Cy_SmartIO_SetChBypass m :: _ => some m
  | _ :: t => lastMask t

/-- The enabled flag of the Smart I/O block after the calls of a log: set by
`Cy_SmartIO_Enable`, cleared by `Cy_SmartIO_Disable`; the block is not enabled before the
first `Cy_SmartIO_Enable` (line 135 is the first enabling of the block). -/
def fabricEnabled : List Event → Bool
  | [] => false
  | Event.Cy_SmartIO_Enable :: _ => true
  | Event.Cy_SmartIO_Disable :: _ => false
  | _ :: t => fabricEnabled t

/-- Whether the settle delay has run since the block was last enabled: true after a
`Cy_SysLib_DelayUs(100)`, false right after a `Cy_SmartIO_Enable`, and true when the block
was never enabled. -/
def settledSinceEnable : List Event → Bool
  | [] => true
  | Event.Cy_SysLib_DelayUs us :: t => if us = 100 then true else settledSinceEnable t
  | Event.Cy_SmartIO_Enable :: _ => false
  | _ :: t => settledSinceEnable t

/-- The calls that touch the buffers of the UART under test: the two FIFO clears and the
diagnostic engine. -/
def touchesDut : Event → Bool
  | Event.Cy_SCB_UART_ClearRxFifo Hw.CYBSP_DUT_UART_HW => true
  | Event.Cy_SCB_UART_ClearTxFifo Hw.CYBSP_DUT_UART_HW => true
  | Event.SelfTest_UART_SCB _ => true
  | _ => false

/-- The string argument of a `Cy_SCB_UART_PutString` call. -/
def putStringArg : Event → Option String
  | Event.Cy_SCB_UART_PutString _ s => some s
  | _ => none

/-- The strings handed to `Cy_SCB_UART_PutString`, in the order they were printed. -/
def printed (log : List Event) : List String :=
  log.reverse.filterMap putStringArg

/-- Whether a call is a call of the diagnostic engine. -/
def isEngineCall : Event → Bool
  | Event.SelfTest_UART_SCB _ => true
  | _ => false

/-- Number of calls of the diagnostic engine in a log. -/
def engineCalls (log : List Event) : Nat :=
  log.countP isEngineCall

/-- A property `P e before` holds at every call `e` of a log, `before` being the calls
made before `e` (most recent first). -/
def Always (P : Event → List Event → Prop) : List Event → Prop
  | [] => True
  | e :: before => P e before ∧ Always P before

/-! ## States along the loop body and properties of calls, used in the statements -/

/-- State after lines 157 to 163: quiesce, disable the block, set the loopback mask. -/
def afterLoopbackSet (st : State) : State :=
  call (Event.Cy_SmartIO_SetChBypass Mask.CY_SMARTIO_CHANNEL_NONE)
  (call Event.Cy_SmartIO_Disable
  (call (Event.Cy_SCB_UART_AbortTransmit Hw.CYBSP_DUT_UART_HW)
  (call (Event.Cy_SCB_UART_AbortReceive Hw.CYBSP_DUT_UART_HW)
  (call (Event.Cy_SCB_UART_StopRingBuffer Hw.CYBSP_DUT_UART_HW) st))))

/-- State after lines 168 to 181 of pass `i`: enable, flush, run the engine, disable the
block, set the bypass mask. -/
def afterBypassSet (env : Env) (i : Nat) (st : State) : State :=
  call (Event.Cy_SmartIO_SetChBypass Mask.CY_SMARTIO_CHANNEL_ALL)
  (call Event.Cy_SmartIO_Disable
  { call (Event.SelfTest_UART_SCB Hw.CYBSP_DUT_UART_HW)
    (call (Event.Cy_SCB_UART_ClearTxFifo Hw.CYBSP_DUT_UART_HW)
    (call (Event.Cy_SCB_UART_ClearRxFifo Hw.CYBSP_DUT_UART_HW)
    (call Event.Cy_SmartIO_Enable (afterLoopbackSet st)))) with
    ret := env.SelfTest_UART_SCB i % 256 })

/-- State after lines 186 to 191 of pass `i`: enable, settle delay, flush. -/
def afterBypassFlush (env : Env) (i : Nat) (st : State) : State :=
  call (Event.Cy_SCB_UART_ClearTxFifo Hw.CYBSP_DUT_UART_HW)
  (call (Event.Cy_SCB_UART_ClearRxFifo Hw.CYBSP_DUT_UART_HW)
  (call (Event.Cy_SysLib_DelayUs 100)
  (call Event.Cy_SmartIO_Enable (afterBypassSet env i st))))

/-- The verdict of pass `i`, as stored in `ret`, is a failing one: the condition of the
`if` of line 193. -/
def failingVerdict (env : Env) (i : Nat) : Prop :=
  env.PASS_COMPLETE_STATUS ≠ env.SelfTest_UART_SCB i % 256 ∧
  env.PASS_STILL_TESTING_STATUS ≠ env.SelfTest_UART_SCB i % 256

instance (env : Env) (i : Nat) : Decidable (failingVerdict env i) := by
  unfold failingVerdict
  exact inferInstance

/-- Every bring-up call of `main` succeeds (lines 108, 237, 129 and 141). -/
def bringUpOk (env : Env) : Prop :=
  env.cybsp_init = env.CY_RSLT_SUCCESS ∧
  env.Cy_SCB_UART_Init_DUT = env.CY_SCB_UART_SUCCESS ∧
  env.CY_SMARTIO_SUCCESS = env.Cy_SmartIO_Init ∧
  env.SetChBypass_init = env.CY_SMARTIO_SUCCESS

instance (env : Env) : Decidable (bringUpOk env) := by
  unfold bringUpOk
  exact inferInstance

/-- The quiesce calls and the disabling of the block come right before `e` when `e` is the
switch into loopback. -/
def QuiescedBefore (e : Event) (before : List Event) : Prop :=
  e = Event.Cy_SmartIO_SetChBypass Mask.CY_SMARTIO_CHANNEL_NONE →
    ∃ r, before = Event.Cy_SmartIO_Disable
      :: Event.Cy_SCB_UART_AbortTransmit Hw.CYBSP_DUT_UART_HW
      :: Event.Cy_SCB_UART_AbortReceive Hw.CYBSP_DUT_UART_HW
      :: Event.Cy_SCB_UART_StopRingBuffer Hw.CYBSP_DUT_UART_HW :: r

/-- A text is a report of a verdict: the error text or a progress line. -/
def isReport (s : String) : Prop :=
  s = errorText ∨ ∃ n, s = sprintf_count n

/-- When `e` prints a report, the block is in bypass and enabled. -/
def ReportedInBypass (e : Event) (before : List Event) : Prop :=
  ∀ hw s, e = Event.Cy_SCB_UART_PutString hw s → isReport s →
    lastMask before = some Mask.CY_SMARTIO_CHANNEL_ALL ∧ fabricEnabled before = true

/-- The order of a mode change at the call `e`: the mask is set while the block is
disabled; the block is enabled either for the first time, right after `Cy_SmartIO_Init`,
or right after the mask call that follows the disabling; the engine runs while the block is
enabled, and so does every FIFO clear made once the block has been enabled. -/
def ModeChangeOrder (e : Event) (before : List Event) : Prop :=
  (∀ m, e = Event.Cy_SmartIO_SetChBypass m → fabricEnabled before = false) ∧
  (e = Event.Cy_SmartIO_Enable →
    (∃ r, before = Event.Cy_SmartIO_Init :: r) ∨
    (∃ m r, before = Event.Cy_SmartIO_SetChBypass m :: Event.Cy_SmartIO_Disable :: r)) ∧
  (∀ hw, e = Event.SelfTest_UART_SCB hw → fabricEnabled before = true) ∧
  (touchesDut e = true → Event.Cy_SmartIO_Enable ∈ before → fabricEnabled before = true)

/-! ## Scenarios used as concrete inputs -/

/-- A healthy platform on which the engine returns Complete in every pass. -/
def healthyEnv : Env :=
  { CY_RSLT_SUCCESS := 0, CY_SCB_UART_SUCCESS := 0, CY_SMARTIO_SUCCESS := 0,
    PASS_COMPLETE_STATUS := 3, PASS_STILL_TESTING_STATUS := 2,
    cybsp_init := 0, Cy_SCB_UART_Init_DUT := 0, Cy_SmartIO_Init := 0,
    SetChBypass_init := 0, SetChBypass_loopback := fun _ => 0,
    SetChBypass_bypass := fun _ => 0, SelfTest_UART_SCB := fun _ => 3 }

/-- A healthy platform on which the engine fails in the third pass (value 1) and returns
Complete before. -/
def failingEnv : Env :=
  { healthyEnv with SelfTest_UART_SCB := fun i => if i = 2 then 1 else 3 }

/-- A healthy platform except that the switch into loopback fails in the second pass. -/
def fabricErrorEnv : Env :=
  { healthyEnv with SetChBypass_loopback := fun i => if i = 1 then 1 else 0 }

/-- A healthy platform on which the engine returns StillTesting in the first pass and
Complete afterwards. -/
def stillTestingEnv : Env :=
  { healthyEnv with SelfTest_UART_SCB := fun i => if i = 0 then 2 else 3 }

/-! ## Basic facts about the program -/

section projections

variable (e : Event) (st : State)

@[simp] theorem call_log : (call e st).log = e :: st.log := rfl
@[simp] theorem call_count : (call e st).count = st.count := rfl
@[simp] theorem call_ret : (call e st).ret = st.ret := rfl
@[simp] theorem call_status : (call e st).status = st.status := rfl
@[simp] theorem call_buff : (call e st).uart_print_buff = st.uart_print_buff := rfl
@[simp] theorem assert_log : (CY_ASSERT_0 st).log = st.log := rfl
@[simp] theorem assert_count : (CY_ASSERT_0 st).count = st.count := rfl
@[simp] theorem assert_ret : (CY_ASSERT_0 st).ret = st.ret := rfl
@[simp] theorem assert_status : (CY_ASSERT_0 st).status = Status.asserted := rfl
@[simp] theorem spin_log : (spinForever st).log = st.log := rfl
@[simp] theorem spin_count : (spinForever st).count = st.count := rfl
@[simp] theorem spin_ret : (spinForever st).ret = st.ret := rfl
@[simp] theorem spin_status : (spinForever st).status = Status.failed := rfl

end projections

theorem loopBody_halted (env : Env) (i : Nat) (st : State)
    (h : st.status ≠ Status.running) : loopBody env i st = st := by
  simp [loopBody, h]

theorem run_halted (env : Env) (k : Nat) (h : (run env k).status ≠ Status.running) (m : Nat) :
    run env (k + m) = run env k := by
  induction m with
  | zero => rfl
  | succ m ih =>
    show loopBody env (k + m) (run env (k + m)) = run env k
    rw [ih, loopBody_halted env _ _ h]

theorem incrementCount_le (n : Nat) : incrementCount n ≤ MAX_INDEX_VAL := by
  unfold incrementCount
  simp only
  split_ifs with h
  · exact Nat.zero_le _
  · exact Nat.le_of_not_lt h

theorem incrementCount_eq (n : Nat) (h : n ≤ MAX_INDEX_VAL) :
    incrementCount n = (n + 1) % (MAX_INDEX_VAL + 1) := by
  have hM : MAX_INDEX_VAL = 65520 := rfl
  rw [hM] at h
  unfold incrementCount
  rw [hM]
  simp only
  split_ifs <;> omega

theorem loopTest_count (env : Env) (i : Nat) (st : State) :
    (loopTest env i st).count = st.count := by
  unfold loopTest
  simp only
  split_ifs <;> simp

theorem classify_count_le (env : Env) (st : State) (h : st.count ≤ MAX_INDEX_VAL) :
    (classify env st).count ≤ MAX_INDEX_VAL := by
  unfold classify
  simp only
  split_ifs
  · simpa using h
  · exact incrementCount_le _

theorem mainInit_count (env : Env) : (mainInit env).count = 0 := by
  unfold mainInit SelfTest_UART_SCB_Init
  simp only
  split_ifs <;> simp [start]

theorem run_count_le (env : Env) (k : Nat) : (run env k).count ≤ MAX_INDEX_VAL := by
  induction k with
  | zero => show (mainInit env).count ≤ _; rw [mainInit_count]; exact Nat.zero_le _
  | succ k ih =>
    show (loopBody env k (run env k)).count ≤ _
    unfold loopBody
    simp only
    split_ifs
    · exact ih
    · rw [loopTest_count]; exact ih
    · exact classify_count_le _ _ (by rw [loopTest_count]; exact ih)

/-! ## The paths through the loop body -/

section paths

variable (env : Env) (i : Nat) (st : State)

@[simp] theorem afterLoopbackSet_log : (afterLoopbackSet st).log =
    Event.Cy_SmartIO_SetChBypass Mask.CY_SMARTIO_CHANNEL_NONE
    :: Event.Cy_SmartIO_Disable
    :: Event.Cy_SCB_UART_AbortTransmit Hw.CYBSP_DUT_UART_HW
    :: Event.Cy_SCB_UART_AbortReceive Hw.CYBSP_DUT_UART_HW
    :: Event.Cy_SCB_UART_StopRingBuffer Hw.CYBSP_DUT_UART_HW :: st.log := rfl
@[simp] theorem afterLoopbackSet_count : (afterLoopbackSet st).count = st.count := rfl
@[simp] theorem afterLoopbackSet_status : (afterLoopbackSet st).status = st.status := rfl
@[simp] theorem afterBypassSet_log : (afterBypassSet env i st).log =
    Event.Cy_SmartIO_SetChBypass Mask.CY_SMARTIO_CHANNEL_ALL
    :: Event.Cy_SmartIO_Disable
    :: Event.SelfTest_UART_SCB Hw.CYBSP_DUT_UART_HW
    :: Event.Cy_SCB_UART_ClearTxFifo Hw.CYBSP_DUT_UART_HW
    :: Event.Cy_SCB_UART_ClearRxFifo Hw.CYBSP_DUT_UART_HW
    :: Event.Cy_SmartIO_Enable :: (afterLoopbackSet st).log := rfl
@[simp] theorem afterBypassSet_count : (afterBypassSet env i st).count = st.count := by
  simp [afterBypassSet]
@[simp] theorem afterBypassSet_status : (afterBypassSet env i st).status = st.status := by
  simp [afterBypassSet]
@[simp] theorem afterBypassSet_ret :
    (afterBypassSet env i st).ret = env.SelfTest_UART_SCB i % 256 := rfl
@[simp] theorem afterBypassFlush_log : (afterBypassFlush env i st).log =
    Event.Cy_SCB_UART_ClearTxFifo Hw.CYBSP_DUT_UART_HW
    :: Event.Cy_SCB_UART_ClearRxFifo Hw.CYBSP_DUT_UART_HW
    :: Event.Cy_SysLib_DelayUs 100
    :: Event.Cy_SmartIO_Enable :: (afterBypassSet env i st).log := rfl
@[simp] theorem afterBypassFlush_count : (afterBypassFlush env i st).count = st.count := by
  simp [afterBypassFlush]
@[simp] theorem afterBypassFlush_status : (afterBypassFlush env i st).status = st.status := by
  simp [afterBypassFlush]
@[simp] theorem afterBypassFlush_ret :
    (afterBypassFlush env i st).ret = env.SelfTest_UART_SCB i % 256 := rfl

end paths

theorem loopTest_fail_loopback (env : Env) (i : Nat) (st : State)
    (h : env.SetChBypass_loopback i ≠ env.CY_SMARTIO_SUCCESS) :
    loopTest env i st = CY_ASSERT_0 (afterLoopbackSet st) :=
  if_pos h

theorem loopTest_fail_bypass (env : Env) (i : Nat) (st : State)
    (h1 : env.SetChBypass_loopback i = env.CY_SMARTIO_SUCCESS)
    (h2 : env.SetChBypass_bypass i ≠ env.CY_SMARTIO_SUCCESS) :
    loopTest env i st = CY_ASSERT_0 (afterBypassSet env i st) :=
  (if_neg (not_not.mpr h1)).trans (if_pos h2)

theorem loopTest_ok (env : Env) (i : Nat) (st : State)
    (h1 : env.SetChBypass_loopback i = env.CY_SMARTIO_SUCCESS)
    (h2 : env.SetChBypass_bypass i = env.CY_SMARTIO_SUCCESS) :
    loopTest env i st = afterBypassFlush env i st :=
  (if_neg (not_not.mpr h1)).trans (if_neg (not_not.mpr h2))

/-- The classification is reached in pass `i` exactly when both mode changes succeed. -/
theorem loopTest_status (env : Env) (i : Nat) (st : State) (hrun : st.status = Status.running) :
    (loopTest env i st).status = Status.running ↔
      env.SetChBypass_loopback i = env.CY_SMARTIO_SUCCESS ∧
      env.SetChBypass_bypass i = env.CY_SMARTIO_SUCCESS := by
  by_cases h1 : env.SetChBypass_loopback i = env.CY_SMARTIO_SUCCESS
  · by_cases h2 : env.SetChBypass_bypass i = env.CY_SMARTIO_SUCCESS
    · rw [loopTest_ok env i st h1 h2]; simp [h1, h2, hrun]
    · rw [loopTest_fail_bypass env i st h1 h2]; simp [h1, h2]
  · rw [loopTest_fail_loopback env i st h1]; simp [h1]

/-- The four ways a pass through the loop body can go, from a running state. -/
theorem loopBody_cases (env : Env) (i : Nat) (st : State) (hrun : st.status = Status.running) :
    (env.SetChBypass_loopback i ≠ env.CY_SMARTIO_SUCCESS ∧
      loopBody env i st = CY_ASSERT_0 (afterLoopbackSet st)) ∨
    (env.SetChBypass_loopback i = env.CY_SMARTIO_SUCCESS ∧
      env.SetChBypass_bypass i ≠ env.CY_SMARTIO_SUCCESS ∧
      loopBody env i st = CY_ASSERT_0 (afterBypassSet env i st)) ∨
    (env.SetChBypass_loopback i = env.CY_SMARTIO_SUCCESS ∧
      env.SetChBypass_bypass i = env.CY_SMARTIO_SUCCESS ∧
      loopBody env i st = classify env (afterBypassFlush env i st)) := by
  have hb : loopBody env i st =
      if (loopTest env i st).status ≠ Status.running then loopTest env i st
      else classify env (loopTest env i st) := if_neg (not_not.mpr hrun)
  by_cases h1 : env.SetChBypass_loopback i = env.CY_SMARTIO_SUCCESS
  · by_cases h2 : env.SetChBypass_bypass i = env.CY_SMARTIO_SUCCESS
    · right; right
      refine ⟨h1, h2, ?_⟩
      rw [hb, loopTest_ok env i st h1 h2]
      exact if_neg (not_not.mpr (by simp [hrun]))
    · right; left
      refine ⟨h1, h2, ?_⟩
      rw [hb, loopTest_fail_bypass env i st h1 h2]
      simp
  · left
    refine ⟨h1, ?_⟩
    rw [hb, loopTest_fail_loopback env i st h1]
    simp

/-- The error branch of the classification (lines 196 and 197). -/
theorem classify_failed (env : Env) (st : State)
    (h : env.PASS_COMPLETE_STATUS ≠ st.ret ∧ env.PASS_STILL_TESTING_STATUS ≠ st.ret) :
    classify env st =
      spinForever (call (Event.Cy_SCB_UART_PutString Hw.CYBSP_UART_HW errorText) st) :=
  if_pos h

/-- The progress branch of the classification (lines 201 to 208). -/
theorem classify_passed (env : Env) (st : State)
    (h : ¬ (env.PASS_COMPLETE_STATUS ≠ st.ret ∧ env.PASS_STILL_TESTING_STATUS ≠ st.ret)) :
    classify env st =
      { call (Event.Cy_SCB_UART_PutString Hw.CYBSP_UART_HW (sprintf_count st.count))
          { st with uart_print_buff := sprintf_count st.count } with
        count := incrementCount st.count } :=
  if_neg h

theorem loopBody_fail_loopback (env : Env) (i : Nat) (st : State)
    (hrun : st.status = Status.running)
    (h : env.SetChBypass_loopback i ≠ env.CY_SMARTIO_SUCCESS) :
    (loopBody env i st).status = Status.asserted ∧
    (loopBody env i st).count = st.count ∧
    (loopBody env i st).log = (afterLoopbackSet st).log := by
  rcases loopBody_cases env i st hrun with ⟨_, e⟩ | ⟨h1, _, _⟩ | ⟨h1, _, _⟩
  · rw [e]; simp
  · exact absurd h1 h
  · exact absurd h1 h

theorem loopBody_fail_bypass (env : Env) (i : Nat) (st : State)
    (hrun : st.status = Status.running)
    (h1 : env.SetChBypass_loopback i = env.CY_SMARTIO_SUCCESS)
    (h2 : env.SetChBypass_bypass i ≠ env.CY_SMARTIO_SUCCESS) :
    (loopBody env i st).status = Status.asserted ∧
    (loopBody env i st).count = st.count ∧
    (loopBody env i st).log = (afterBypassSet env i st).log := by
  rcases loopBody_cases env i st hrun with ⟨h, _⟩ | ⟨_, _, e⟩ | ⟨_, h, _⟩
  · exact absurd h1 h
  · rw [e]; simp
  · exact absurd h h2

theorem loopBody_reached (env : Env) (i : Nat) (st : State)
    (hrun : st.status = Status.running)
    (h1 : env.SetChBypass_loopback i = env.CY_SMARTIO_SUCCESS)
    (h2 : env.SetChBypass_bypass i = env.CY_SMARTIO_SUCCESS) :
    loopBody env i st = classify env (afterBypassFlush env i st) := by
  rcases loopBody_cases env i st hrun with ⟨h, _⟩ | ⟨_, h, _⟩ | ⟨_, _, e⟩
  · exact absurd h1 h
  · exact absurd h2 h
  · exact e

theorem loopBody_failed (env : Env) (i : Nat) (st : State)
    (hrun : st.status = Status.running)
    (h1 : env.SetChBypass_loopback i = env.CY_SMARTIO_SUCCESS)
    (h2 : env.SetChBypass_bypass i = env.CY_SMARTIO_SUCCESS)
    (hv : failingVerdict env i) :
    (loopBody env i st).status = Status.failed ∧
    (loopBody env i st).count = st.count ∧
    (loopBody env i st).log =
      Event.Cy_SCB_UART_PutString Hw.CYBSP_UART_HW errorText
        :: (afterBypassFlush env i st).log := by
  have hc : env.PASS_COMPLETE_STATUS ≠ (afterBypassFlush env i st).ret ∧
      env.PASS_STILL_TESTING_STATUS ≠ (afterBypassFlush env i st).ret := by
    rw [afterBypassFlush_ret]; exact hv
  rw [loopBody_reached env i st hrun h1 h2, classify_failed env _ hc]
  exact ⟨rfl, afterBypassFlush_count env i st, rfl⟩

theorem loopBody_passed (env : Env) (i : Nat) (st : State)
    (hrun : st.status = Status.running)
    (h1 : env.SetChBypass_loopback i = env.CY_SMARTIO_SUCCESS)
    (h2 : env.SetChBypass_bypass i = env.CY_SMARTIO_SUCCESS)
    (hv : ¬ failingVerdict env i) :
    (loopBody env i st).status = Status.running ∧
    (loopBody env i st).count = incrementCount st.count ∧
    (loopBody env i st).log =
      Event.Cy_SCB_UART_PutString Hw.CYBSP_UART_HW (sprintf_count st.count)
        :: (afterBypassFlush env i st).log := by
  have hc : ¬ (env.PASS_COMPLETE_STATUS ≠ (afterBypassFlush env i st).ret ∧
      env.PASS_STILL_TESTING_STATUS ≠ (afterBypassFlush env i st).ret) := by
    rw [afterBypassFlush_ret]; exact hv
  rw [loopBody_reached env i st hrun h1 h2, classify_passed env _ hc]
  refine ⟨?_, ?_, ?_⟩
  · simp only [call_status, afterBypassFlush_status, hrun]
  · simp only [afterBypassFlush_count]
  · simp only [call_log, afterBypassFlush_count]

/-! ## The printed texts -/

theorem sprintf_count_take (n : Nat) : (sprintf_count n).data.take 2 = ['\r', 'U'] := by
  unfold sprintf_count
  rw [String.data_append, List.take_append_of_le_length (by decide)]
  decide

theorem sprintf_count_ne_errorText (n : Nat) : sprintf_count n ≠ errorText := by
  intro h
  have := sprintf_count_take n
  rw [h] at this
  revert this
  decide

theorem sprintf_count_ne_clear (n : Nat) : sprintf_count n ≠ "\x1b[2J\x1b[;H" := by
  intro h
  have := sprintf_count_take n
  rw [h] at this
  revert this
  decide

theorem sprintf_count_ne_banner (n : Nat) :
    sprintf_count n ≠ "\r\nClass-B Safety Test: UART Loopback\r\n" := by
  intro h
  have := sprintf_count_take n
  rw [h] at this
  revert this
  decide

theorem digitChar_ascii (d : Nat) (h : d < 10) : (Nat.digitChar d).utf8Size = 1 := by
  interval_cases d <;> rfl

theorem toDigitsCore_utf8Len (fuel n : Nat) (ds : List Char)
    (h : String.utf8Len ds = ds.length) :
    String.utf8Len (Nat.toDigitsCore 10 fuel n ds) = (Nat.toDigitsCore 10 fuel n ds).length := by
  induction fuel generalizing n ds with
  | zero => simpa [Nat.toDigitsCore] using h
  | succ fuel ih =>
    have hd : (Nat.digitChar (n % 10)).utf8Size = 1 :=
      digitChar_ascii _ (Nat.mod_lt _ (by decide))
    unfold Nat.toDigitsCore
    simp only
    split_ifs
    · simp [String.utf8Len_cons, hd, h]
    · exact ih _ _ (by simp [String.utf8Len_cons, hd, h])

theorem repr_utf8ByteSize (n : Nat) : (Nat.repr n).utf8ByteSize = (Nat.repr n).length := by
  unfold Nat.repr Nat.toDigits
  simp only [List.asString, String.utf8ByteSize_mk, String.length]
  exact toDigitsCore_utf8Len _ _ _ rfl

theorem sprintf_count_bytes (n : Nat) :
    (sprintf_count n).utf8ByteSize = 51 + (Nat.repr n).length := by
  have h := repr_utf8ByteSize n
  show String.utf8Len (progressFormat.data ++ (Nat.repr n).data) = _
  rw [String.utf8Len_append]
  have h2 : String.utf8Len (Nat.repr n).data = (Nat.repr n).length := h
  rw [h2]
  rfl

/-! ## The bring-up and runs without a fault -/

theorem printed_cons (e : Event) (log : List Event) :
    printed (e :: log) = printed log ++ (putStringArg e).toList := by
  unfold printed
  rw [List.reverse_cons, List.filterMap_append]
  cases h : putStringArg e <;> simp [List.filterMap, h]

theorem engineCalls_cons (e : Event) (log : List Event) :
    engineCalls (e :: log) = engineCalls log + (if isEngineCall e then 1 else 0) := by
  unfold engineCalls
  rw [List.countP_cons]

theorem printed_afterBypassFlush (env : Env) (i : Nat) (st : State) :
    printed (afterBypassFlush env i st).log = printed st.log := by
  simp [printed_cons, putStringArg]

theorem engineCalls_afterLoopbackSet (st : State) :
    engineCalls (afterLoopbackSet st).log = engineCalls st.log := by
  simp [engineCalls_cons, isEngineCall]

theorem engineCalls_afterBypassFlush (env : Env) (i : Nat) (st : State) :
    engineCalls (afterBypassFlush env i st).log = engineCalls st.log + 1 := by
  simp [engineCalls_cons, isEngineCall]

theorem mainInit_ok (env : Env) (h : bringUpOk env) :
    (mainInit env).status = Status.running ∧
    printed (mainInit env).log =
      ["\x1b[2J\x1b[;H", "\r\nClass-B Safety Test: UART Loopback\r\n"] := by
  obtain ⟨h1, h2, h3, h4⟩ := h
  unfold mainInit SelfTest_UART_SCB_Init
  simp [h1, h2, h3, h4, start, printed_cons, putStringArg, printed]

theorem mainInit_printed (env : Env) :
    ∀ s ∈ printed (mainInit env).log,
      s = "\x1b[2J\x1b[;H" ∨ s = "\r\nClass-B Safety Test: UART Loopback\r\n" := by
  unfold mainInit SelfTest_UART_SCB_Init
  simp only
  split_ifs <;> simp [start, printed_cons, putStringArg, printed]

theorem run_running_pred (env : Env) (k : Nat)
    (h : (run env (k + 1)).status = Status.running) : (run env k).status = Status.running := by
  by_contra hn
  have : run env (k + 1) = run env k := loopBody_halted env k _ hn
  rw [this] at h
  exact hn h

/-- While the program is running, the error text has not been printed. -/
theorem run_no_error (env : Env) (k : Nat) (h : (run env k).status = Status.running) :
    errorText ∉ printed (run env k).log := by
  induction k with
  | zero =>
    intro hmem
    rcases mainInit_printed env _ hmem with e | e <;> revert e <;> decide
  | succ k ih =>
    have hrun := run_running_pred env k h
    have ih := ih hrun
    show errorText ∉ printed (loopBody env k (run env k)).log
    have h : (loopBody env k (run env k)).status = Status.running := h
    by_cases h1 : env.SetChBypass_loopback k = env.CY_SMARTIO_SUCCESS
    · by_cases h2 : env.SetChBypass_bypass k = env.CY_SMARTIO_SUCCESS
      · by_cases hv : failingVerdict env k
        · rw [(loopBody_failed env k _ hrun h1 h2 hv).1] at h
          cases h
        · rw [(loopBody_passed env k _ hrun h1 h2 hv).2.2, printed_cons,
            printed_afterBypassFlush]
          simp only [putStringArg, Option.toList, List.mem_append, List.mem_singleton]
          rintro (hm | hm)
          · exact ih hm
          · exact sprintf_count_ne_errorText _ hm.symm
      · rw [(loopBody_fail_bypass env k _ hrun h1 h2).1] at h
        cases h
    · rw [(loopBody_fail_loopback env k _ hrun h1).1] at h
      cases h

/-- A run in which the bring-up and the first `k` passes go without a fault. -/
theorem run_healthy (env : Env) (hinit : bringUpOk env) (k : Nat)
    (h : ∀ i, i < k → env.SetChBypass_loopback i = env.CY_SMARTIO_SUCCESS ∧
      env.SetChBypass_bypass i = env.CY_SMARTIO_SUCCESS ∧ ¬ failingVerdict env i) :
    (run env k).status = Status.running ∧
    (run env k).count = k % (MAX_INDEX_VAL + 1) ∧
    printed (run env k).log =
      ["\x1b[2J\x1b[;H", "\r\nClass-B Safety Test: UART Loopback\r\n"] ++
        (List.range k).map (fun i => sprintf_count (i % (MAX_INDEX_VAL + 1))) := by
  induction k with
  | zero =>
    refine ⟨(mainInit_ok env hinit).1, mainInit_count env, ?_⟩
    simpa using (mainInit_ok env hinit).2
  | succ k ih =>
    obtain ⟨hs, hc, hp⟩ := ih (fun i hi => h i (Nat.lt_succ_of_lt hi))
    obtain ⟨h1, h2, hv⟩ := h k (Nat.lt_succ_self k)
    obtain ⟨ps, pc, pl⟩ := loopBody_passed env k (run env k) hs h1 h2 hv
    have hle : k % (MAX_INDEX_VAL + 1) ≤ MAX_INDEX_VAL :=
      Nat.le_of_lt_succ (Nat.mod_lt _ (Nat.succ_pos _))
    refine ⟨ps, ?_, ?_⟩
    · show (loopBody env k (run env k)).count = _
      rw [pc, hc, incrementCount_eq _ hle, Nat.mod_add_mod]
    · show printed (loopBody env k (run env k)).log = _
      rw [pl, printed_cons, printed_afterBypassFlush, hp, hc, List.range_succ,
        List.map_append, List.append_assoc]
      rfl

/-! ## Properties of every call in the log -/

theorem always_iff (P : Event → List Event → Prop) (log : List Event) :
    Always P log ↔ ∀ e before, (e :: before) <:+ log → P e before := by
  induction log with
  | nil => simp [Always]
  | cons a log ih =>
    simp only [Always, ih, List.suffix_cons_iff]
    constructor
    · rintro ⟨ha, hl⟩ e before (h | h)
      · cases h; exact ha
      · exact hl e before h
    · intro h
      exact ⟨h a log (Or.inl rfl), fun e before hs => h e before (Or.inr hs)⟩

theorem mainInit_quiesced (env : Env) : Always QuiescedBefore (mainInit env).log := by
  unfold mainInit SelfTest_UART_SCB_Init
  simp only
  split_ifs <;> simp [Always, QuiescedBefore, start]

theorem loopBody_quiesced (env : Env) (i : Nat) (st : State)
    (h : Always QuiescedBefore st.log) : Always QuiescedBefore (loopBody env i st).log := by
  by_cases hrun : st.status = Status.running
  · rcases loopBody_cases env i st hrun with ⟨_, e⟩ | ⟨_, _, e⟩ | ⟨_, _, e⟩
    · rw [e]; simp [Always, QuiescedBefore, h]
    · rw [e]; simp [Always, QuiescedBefore, h]
    · rw [e]
      by_cases hc : env.PASS_COMPLETE_STATUS ≠ (afterBypassFlush env i st).ret ∧
          env.PASS_STILL_TESTING_STATUS ≠ (afterBypassFlush env i st).ret
      · rw [classify_failed env _ hc]; simp [Always, QuiescedBefore, h]
      · rw [classify_passed env _ hc]; simp [Always, QuiescedBefore, h]
  · rw [loopBody_halted env i st hrun]; exact h

theorem run_quiesced (env : Env) (k : Nat) : Always QuiescedBefore (run env k).log := by
  induction k with
  | zero => exact mainInit_quiesced env
  | succ k ih => exact loopBody_quiesced env k _ ih

/-! ## Claims about the classification, the counter and the progress line -/

/-- C3. Once the classification of pass `i` is reached (the program was running and both
mode changes succeeded), the pass ends in the error branch, spinning in `while (1);`,
exactly when `ret` is neither `PASS_COMPLETE_STATUS` nor `PASS_STILL_TESTING_STATUS`,
whatever value `ret` has.  Otherwise, for StillTesting as for Complete, the program keeps
running, prints the progress line for the current counter as the next call, and the counter
is incremented. -/
theorem classification_exact (env : Env) (i : Nat) (st : State)
    (hrun : st.status = Status.running)
    (hreach : (loopTest env i st).status = Status.running) :
    ((loopBody env i st).status = Status.failed ↔
      (env.PASS_COMPLETE_STATUS ≠ env.SelfTest_UART_SCB i % 256 ∧
       env.PASS_STILL_TESTING_STATUS ≠ env.SelfTest_UART_SCB i % 256)) ∧
    ((env.SelfTest_UART_SCB i % 256 = env.PASS_COMPLETE_STATUS ∨
      env.SelfTest_UART_SCB i % 256 = env.PASS_STILL_TESTING_STATUS) →
      (loopBody env i st).status = Status.running ∧
      (loopBody env i st).count = incrementCount st.count ∧
      (loopBody env i st).log =
        Event.Cy_SCB_UART_PutString Hw.CYBSP_UART_HW (sprintf_count st.count)
          :: (loopTest env i st).log) := by
  obtain ⟨h1, h2⟩ := (loopTest_status env i st hrun).mp hreach
  rw [loopTest_ok env i st h1 h2]
  by_cases hv : failingVerdict env i
  · have hf := loopBody_failed env i st hrun h1 h2 hv
    refine ⟨⟨fun _ => hv, fun _ => hf.1⟩, ?_⟩
    rintro (h | h)
    · exact absurd h.symm hv.1
    · exact absurd h.symm hv.2
  · have hp := loopBody_passed env i st hrun h1 h2 hv
    refine ⟨⟨fun h => ?_, fun h => absurd h hv⟩, fun _ => hp⟩
    rw [hp.1] at h
    cases h

theorem classification_exact_witness :
    (loopBody failingEnv 2 (run failingEnv 2)).status = Status.failed ∧
    ((loopBody stillTestingEnv 0 (run stillTestingEnv 0)).status = Status.running ∧
      (loopBody stillTestingEnv 0 (run stillTestingEnv 0)).count =
        incrementCount (run stillTestingEnv 0).count ∧
      (loopBody stillTestingEnv 0 (run stillTestingEnv 0)).log =
        Event.Cy_SCB_UART_PutString Hw.CYBSP_UART_HW
            (sprintf_count (run stillTestingEnv 0).count)
          :: (loopTest stillTestingEnv 0 (run stillTestingEnv 0)).log) :=
  ⟨(classification_exact failingEnv 2 (run failingEnv 2) (by decide) (by decide)).1.mpr
      (by decide),
   (classification_exact stillTestingEnv 0 (run stillTestingEnv 0) (by decide)
      (by decide)).2 (Or.inr rfl)⟩

/-- C4. For every value `n` the cycle counter holds (in every run it stays within
`0..MAX_INDEX_VAL`), the counter update of lines 204 to 208 gives
`(n + 1) mod (MAX_INDEX_VAL + 1)`; in particular it gives `0` at `MAX_INDEX_VAL`.  A pass
that starts with the counter at `MAX_INDEX_VAL` and gets a non-failing verdict prints
`MAX_INDEX_VAL` and leaves the counter at `0`, and the progress line of the following pass
carries `0`. -/
theorem counter_wraparound (n : Nat) (hn : n ≤ MAX_INDEX_VAL) :
    incrementCount n = (n + 1) % (MAX_INDEX_VAL + 1) ∧
    incrementCount MAX_INDEX_VAL = 0 ∧
    (∀ env k, (run env k).count ≤ MAX_INDEX_VAL) ∧
    (∀ env i j st, st.status = Status.running → st.count = MAX_INDEX_VAL →
      env.SetChBypass_loopback i = env.CY_SMARTIO_SUCCESS →
      env.SetChBypass_bypass i = env.CY_SMARTIO_SUCCESS →
      env.SelfTest_UART_SCB i % 256 = env.PASS_COMPLETE_STATUS →
      (loopBody env i st).count = 0 ∧
      (loopBody env i st).status = Status.running ∧
      (env.SetChBypass_loopback j = env.CY_SMARTIO_SUCCESS →
        env.SetChBypass_bypass j = env.CY_SMARTIO_SUCCESS →
        ¬ failingVerdict env j →
        (loopBody env j (loopBody env i st)).log =
          Event.Cy_SCB_UART_PutString Hw.CYBSP_UART_HW (sprintf_count 0)
            :: (afterBypassFlush env j (loopBody env i st)).log)) := by
  have hmax : incrementCount MAX_INDEX_VAL = 0 := by
    rw [incrementCount_eq _ (Nat.le_refl _), Nat.mod_self]
  refine ⟨incrementCount_eq n hn, hmax, run_count_le, ?_⟩
  intro env i j st hrun hc h1 h2 hv
  have hnf : ¬ failingVerdict env i := fun hf => hf.1 hv.symm
  obtain ⟨ps, pc, _⟩ := loopBody_passed env i st hrun h1 h2 hnf
  have hz : (loopBody env i st).count = 0 := by rw [pc, hc, hmax]
  refine ⟨hz, ps, fun g1 g2 gv => ?_⟩
  rw [(loopBody_passed env j _ ps g1 g2 gv).2.2, hz]

theorem counter_wraparound_witness :
    incrementCount 0xFFF0 = (0xFFF0 + 1) % (MAX_INDEX_VAL + 1) ∧
    (loopBody healthyEnv 65520 (run healthyEnv 65520)).count = 0 :=
  have hr := run_healthy healthyEnv (by decide) 65520 (fun _ _ => ⟨rfl, rfl, fun hf => hf.1 rfl⟩)
  ⟨(counter_wraparound 0xFFF0 (by decide)).1,
   ((counter_wraparound 0xFFF0 (by decide)).2.2.2 healthyEnv 65520 65521
      (run healthyEnv 65520) hr.1 (hr.2.1.trans (by decide)) rfl rfl rfl).1⟩

/-- C10. For every value `count` of the 16-bit counter, the progress line written by
`sprintf` is 51 bytes of fixed text followed by at most 5 digits, so with its terminating
NUL it takes at most 57 bytes, which is within the 100 bytes of `uart_print_buff`. -/
theorem progress_line_fits (count : Nat) (h : count < 65536) :
    (sprintf_count count).utf8ByteSize + 1 ≤ 57 ∧
    (sprintf_count count).utf8ByteSize + 1 ≤ 100 ∧
    (sprintf_count count).utf8ByteSize = (sprintf_count count).length := by
  have hlen : (Nat.repr count).length ≤ 5 :=
    Nat.repr_length count 5 (by decide) (lt_of_lt_of_le h (by norm_num))
  have hb := sprintf_count_bytes count
  have hl : (sprintf_count count).length = 51 + (Nat.repr count).length := by
    unfold sprintf_count
    rw [String.length_append]
    rfl
  omega

theorem progress_line_fits_witness :
    (sprintf_count 65535).utf8ByteSize + 1 ≤ 57 ∧
    (sprintf_count 65535).utf8ByteSize + 1 ≤ 100 ∧
    (sprintf_count 65535).utf8ByteSize = (sprintf_count 65535).length :=
  progress_line_fits 65535 (by decide)

/-! ## Claims about the order of the calls -/

/-- C8. In every run, each call `Cy_SmartIO_SetChBypass(CY_SMARTIO_CHANNEL_NONE)`, the one
of the first pass included, comes directly after `Cy_SCB_UART_StopRingBuffer`,
`Cy_SCB_UART_AbortReceive`, `Cy_SCB_UART_AbortTransmit` and `Cy_SmartIO_Disable`, in that
order: the three quiesce calls are made in the same pass, after any earlier engine call. -/
theorem quiesce_before_loopback (env : Env) (k : Nat) (before : List Event)
    (h : (Event.Cy_SmartIO_SetChBypass Mask.CY_SMARTIO_CHANNEL_NONE :: before)
      <:+ (run env k).log) :
    ∃ r, before = Event.Cy_SmartIO_Disable
      :: Event.Cy_SCB_UART_AbortTransmit Hw.CYBSP_DUT_UART_HW
      :: Event.Cy_SCB_UART_AbortReceive Hw.CYBSP_DUT_UART_HW
      :: Event.Cy_SCB_UART_StopRingBuffer Hw.CYBSP_DUT_UART_HW :: r :=
  (always_iff QuiescedBefore _).mp (run_quiesced env k) _ _ h rfl

theorem quiesce_before_loopback_witness :
    ∃ r, Event.Cy_SmartIO_Disable
      :: Event.Cy_SCB_UART_AbortTransmit Hw.CYBSP_DUT_UART_HW
      :: Event.Cy_SCB_UART_AbortReceive Hw.CYBSP_DUT_UART_HW
      :: Event.Cy_SCB_UART_StopRingBuffer Hw.CYBSP_DUT_UART_HW
      :: (run healthyEnv 0).log
      = Event.Cy_SmartIO_Disable
      :: Event.Cy_SCB_UART_AbortTransmit Hw.CYBSP_DUT_UART_HW
      :: Event.Cy_SCB_UART_AbortReceive Hw.CYBSP_DUT_UART_HW
      :: Event.Cy_SCB_UART_StopRingBuffer Hw.CYBSP_DUT_UART_HW :: r :=
  quiesce_before_loopback healthyEnv 1
    (Event.Cy_SmartIO_Disable
      :: Event.Cy_SCB_UART_AbortTransmit Hw.CYBSP_DUT_UART_HW
      :: Event.Cy_SCB_UART_AbortReceive Hw.CYBSP_DUT_UART_HW
      :: Event.Cy_SCB_UART_StopRingBuffer Hw.CYBSP_DUT_UART_HW
      :: (run healthyEnv 0).log)
    (by decide)

/-- If a property of calls holds throughout the bring-up and is kept by the calls of a
pass that goes all the way to the classification and by either report, it holds
throughout every run. -/
theorem run_always (P : Event → List Event → Prop)
    (hinit : ∀ env, Always P (mainInit env).log)
    (htest : ∀ env i st, Always P st.log → Always P (afterBypassFlush env i st).log)
    (hreport : ∀ env i st s, P (Event.Cy_SCB_UART_PutString Hw.CYBSP_UART_HW s)
      (afterBypassFlush env i st).log)
    (env : Env) (k : Nat) : Always P (run env k).log := by
  induction k with
  | zero => exact hinit env
  | succ k ih =>
    show Always P (loopBody env k (run env k)).log
    have hflush := htest env k _ ih
    by_cases hrun : (run env k).status = Status.running
    · rcases loopBody_cases env k _ hrun with ⟨_, e⟩ | ⟨_, _, e⟩ | ⟨_, _, e⟩
      · rw [e, assert_log]
        rw [afterBypassFlush_log, afterBypassSet_log] at hflush
        exact hflush.2.2.2.2.2.2.2.2.2.2
      · rw [e, assert_log]
        rw [afterBypassFlush_log] at hflush
        exact hflush.2.2.2.2
      · rw [e]
        by_cases hc : env.PASS_COMPLETE_STATUS ≠ (afterBypassFlush env k (run env k)).ret ∧
            env.PASS_STILL_TESTING_STATUS ≠ (afterBypassFlush env k (run env k)).ret
        · rw [classify_failed env _ hc]
          exact ⟨hreport env k _ _, hflush⟩
        · rw [classify_passed env _ hc]
          exact ⟨hreport env k _ _, hflush⟩
    · rw [loopBody_halted env k _ hrun]; exact ih

theorem not_isReport_clear : ¬ isReport "\x1b[2J\x1b[;H" := by
  rintro (h | ⟨n, h⟩)
  · revert h; decide
  · exact sprintf_count_ne_clear n h.symm

theorem not_isReport_banner : ¬ isReport "\r\nClass-B Safety Test: UART Loopback\r\n" := by
  rintro (h | ⟨n, h⟩)
  · revert h; decide
  · exact sprintf_count_ne_banner n h.symm

theorem run_reportedInBypass (env : Env) (k : Nat) :
    Always ReportedInBypass (run env k).log := by
  refine run_always ReportedInBypass ?_ ?_ ?_ env k
  · intro env
    unfold mainInit SelfTest_UART_SCB_Init
    simp only
    split_ifs <;>
      simp [Always, ReportedInBypass, start, not_isReport_clear, not_isReport_banner]
  · intro env i st h
    simp [Always, ReportedInBypass, h]
  · intro env i st s hw t _ _
    simp [lastMask, fabricEnabled]

theorem run_modeChangeOrder (env : Env) (k : Nat) :
    Always ModeChangeOrder (run env k).log := by
  refine run_always ModeChangeOrder ?_ ?_ ?_ env k
  · intro env
    unfold mainInit SelfTest_UART_SCB_Init
    simp only
    split_ifs <;>
      simp [Always, ModeChangeOrder, start, fabricEnabled, touchesDut]
  · intro env i st h
    simp [Always, ModeChangeOrder, h, fabricEnabled, touchesDut]
  · intro env i st s
    simp [ModeChangeOrder, touchesDut]

theorem run_failed_log (env : Env) (k : Nat) (h : (run env k).status = Status.failed) :
    ∃ before, (run env k).log =
      Event.Cy_SCB_UART_PutString Hw.CYBSP_UART_HW errorText :: before := by
  induction k with
  | zero =>
    exfalso
    revert h
    show (mainInit env).status = Status.failed → False
    unfold mainInit SelfTest_UART_SCB_Init
    simp only
    split_ifs <;> simp [start]
  | succ k ih =>
    by_cases hrun : (run env k).status = Status.running
    · have h : (loopBody env k (run env k)).status = Status.failed := h
      show ∃ before, (loopBody env k (run env k)).log = _
      by_cases h1 : env.SetChBypass_loopback k = env.CY_SMARTIO_SUCCESS
      · by_cases h2 : env.SetChBypass_bypass k = env.CY_SMARTIO_SUCCESS
        · by_cases hv : failingVerdict env k
          · exact ⟨_, (loopBody_failed env k _ hrun h1 h2 hv).2.2⟩
          · rw [(loopBody_passed env k _ hrun h1 h2 hv).1] at h
            cases h
        · rw [(loopBody_fail_bypass env k _ hrun h1 h2).1] at h
          cases h
      · rw [(loopBody_fail_loopback env k _ hrun h1).1] at h
        cases h
    · have e : run env (k + 1) = run env k := loopBody_halted env k _ hrun
      rw [e] at h ⊢
      exact ih h

/-- C1. In every run and for every value the engine returns: when pass `k` reaches the
classification of line 193, the most recent mask applied is `CY_SMARTIO_CHANNEL_ALL` and
the block has been enabled again; the same holds at every call that prints the error text
or a progress line, and in the state in which the program spins after the error text. -/
theorem bypass_restored (env : Env) (k : Nat) :
    ((run env k).status = Status.running →
      (loopTest env k (run env k)).status = Status.running →
      lastMask (loopTest env k (run env k)).log = some Mask.CY_SMARTIO_CHANNEL_ALL ∧
      fabricEnabled (loopTest env k (run env k)).log = true) ∧
    (∀ hw s before,
      (Event.Cy_SCB_UART_PutString hw s :: before) <:+ (run env k).log →
      (s = errorText ∨ ∃ n, s = sprintf_count n) →
      lastMask before = some Mask.CY_SMARTIO_CHANNEL_ALL ∧ fabricEnabled before = true) ∧
    ((run env k).status = Status.failed →
      lastMask (run env k).log = some Mask.CY_SMARTIO_CHANNEL_ALL ∧
      fabricEnabled (run env k).log = true) := by
  have hall := (always_iff ReportedInBypass _).mp (run_reportedInBypass env k)
  refine ⟨fun hrun hreach => ?_, fun hw s before hsuf hs => hall _ _ hsuf hw s rfl hs,
    fun hf => ?_⟩
  · obtain ⟨h1, h2⟩ := (loopTest_status env k _ hrun).mp hreach
    rw [loopTest_ok env k _ h1 h2]
    simp [lastMask, fabricEnabled]
  · obtain ⟨before, hb⟩ := run_failed_log env k hf
    have := hall _ before (by rw [hb]) Hw.CYBSP_UART_HW errorText rfl (Or.inl rfl)
    rw [hb]
    simpa [lastMask, fabricEnabled] using this

theorem bypass_restored_witness :
    (lastMask (loopTest failingEnv 2 (run failingEnv 2)).log
        = some Mask.CY_SMARTIO_CHANNEL_ALL ∧
      fabricEnabled (loopTest failingEnv 2 (run failingEnv 2)).log = true) ∧
    (lastMask (loopTest failingEnv 2 (run failingEnv 2)).log
        = some Mask.CY_SMARTIO_CHANNEL_ALL ∧
      fabricEnabled (loopTest failingEnv 2 (run failingEnv 2)).log = true) ∧
    (lastMask (run failingEnv 3).log = some Mask.CY_SMARTIO_CHANNEL_ALL ∧
      fabricEnabled (run failingEnv 3).log = true) :=
  ⟨(bypass_restored failingEnv 2).1 (by decide) (by decide),
   (bypass_restored failingEnv 3).2.1 Hw.CYBSP_UART_HW errorText
      (loopTest failingEnv 2 (run failingEnv 2)).log (by decide) (Or.inl rfl),
   (bypass_restored failingEnv 3).2.2 (by decide)⟩

/-- C9, as the code has it. In every run, at each call `e` of the log: a
`Cy_SmartIO_SetChBypass` is made while the block is disabled; a `Cy_SmartIO_Enable` comes
either right after `Cy_SmartIO_Init` (the first enabling) or right after the mask call that
directly follows `Cy_SmartIO_Disable`; the diagnostic engine is called while the block is
enabled; and a FIFO clear of the UART under test made after the block was first enabled is
made while the block is enabled. -/
theorem mode_change_order (env : Env) (k : Nat) (e : Event) (before : List Event)
    (h : (e :: before) <:+ (run env k).log) :
    (∀ m, e = Event.Cy_SmartIO_SetChBypass m → fabricEnabled before = false) ∧
    (e = Event.Cy_SmartIO_Enable →
      (∃ r, before = Event.Cy_SmartIO_Init :: r) ∨
      (∃ m r, before = Event.Cy_SmartIO_SetChBypass m :: Event.Cy_SmartIO_Disable :: r)) ∧
    (∀ hw, e = Event.SelfTest_UART_SCB hw → fabricEnabled before = true) ∧
    (touchesDut e = true → Event.Cy_SmartIO_Enable ∈ before → fabricEnabled before = true) :=
  (always_iff ModeChangeOrder _).mp (run_modeChangeOrder env k) e before h

theorem mode_change_order_witness :
    fabricEnabled (Event.Cy_SmartIO_Disable
      :: Event.Cy_SCB_UART_AbortTransmit Hw.CYBSP_DUT_UART_HW
      :: Event.Cy_SCB_UART_AbortReceive Hw.CYBSP_DUT_UART_HW
      :: Event.Cy_SCB_UART_StopRingBuffer Hw.CYBSP_DUT_UART_HW
      :: (run healthyEnv 0).log) = false ∧
    fabricEnabled (Event.Cy_SmartIO_Enable
      :: Event.Cy_SmartIO_SetChBypass Mask.CY_SMARTIO_CHANNEL_NONE
      :: Event.Cy_SmartIO_Disable
      :: Event.Cy_SCB_UART_AbortTransmit Hw.CYBSP_DUT_UART_HW
      :: Event.Cy_SCB_UART_AbortReceive Hw.CYBSP_DUT_UART_HW
      :: Event.Cy_SCB_UART_StopRingBuffer Hw.CYBSP_DUT_UART_HW
      :: (run healthyEnv 0).log) = true :=
  ⟨(mode_change_order healthyEnv 1
      (Event.Cy_SmartIO_SetChBypass Mask.CY_SMARTIO_CHANNEL_NONE)
      (Event.Cy_SmartIO_Disable
        :: Event.Cy_SCB_UART_AbortTransmit Hw.CYBSP_DUT_UART_HW
        :: Event.Cy_SCB_UART_AbortReceive Hw.CYBSP_DUT_UART_HW
        :: Event.Cy_SCB_UART_StopRingBuffer Hw.CYBSP_DUT_UART_HW
        :: (run healthyEnv 0).log)
      (by decide)).1 Mask.CY_SMARTIO_CHANNEL_NONE rfl,
   (mode_change_order healthyEnv 1
      (Event.Cy_SCB_UART_ClearRxFifo Hw.CYBSP_DUT_UART_HW)
      (Event.Cy_SmartIO_Enable
        :: Event.Cy_SmartIO_SetChBypass Mask.CY_SMARTIO_CHANNEL_NONE
        :: Event.Cy_SmartIO_Disable
        :: Event.Cy_SCB_UART_AbortTransmit Hw.CYBSP_DUT_UART_HW
        :: Event.Cy_SCB_UART_AbortReceive Hw.CYBSP_DUT_UART_HW
        :: Event.Cy_SCB_UART_StopRingBuffer Hw.CYBSP_DUT_UART_HW
        :: (run healthyEnv 0).log)
      (by decide)).2.2.2 rfl (by decide)⟩

/-- C9, as stated, fails on the bring-up of a healthy platform: the FIFO clear of line 248,
inside `SelfTest_UART_SCB_Init`, touches the buffers of the UART under test before the
Smart I/O block has been initialised or enabled (lines 129 and 135). -/
theorem dut_flushed_before_fabric_enabled :
    ¬ (∀ e before, (e :: before) <:+ (run healthyEnv 0).log →
        touchesDut e = true → fabricEnabled before = true) := by
  intro h
  have := h (Event.Cy_SCB_UART_ClearRxFifo Hw.CYBSP_DUT_UART_HW)
    [Event.Cy_SCB_UART_Enable Hw.CYBSP_DUT_UART_HW,
     Event.Cy_SCB_UART_Init Hw.CYBSP_DUT_UART_HW,
     Event.Cy_SCB_UART_PutString Hw.CYBSP_UART_HW "\r\nClass-B Safety Test: UART Loopback\r\n",
     Event.Cy_SCB_UART_PutString Hw.CYBSP_UART_HW "\x1b[2J\x1b[;H",
     Event.Cy_SCB_UART_Enable Hw.CYBSP_UART_HW,
     Event.Cy_SCB_UART_Init Hw.CYBSP_UART_HW,
     Event.enable_irq,
     Event.cybsp_init] (by decide) rfl
  revert this
  decide

/-- C5 fails on the first pass of a healthy platform: after the switch into loopback the
FIFO clear of line 171 is the call right after the `Cy_SmartIO_Enable` of line 168, with no
settle delay in between, whereas both switches to bypass (lines 146 to 150 and 186 to 190)
run `Cy_SysLib_DelayUs(100)` first. -/
theorem loopback_flush_without_settle :
    (Event.Cy_SCB_UART_ClearRxFifo Hw.CYBSP_DUT_UART_HW
      :: Event.Cy_SmartIO_Enable
      :: Event.Cy_SmartIO_SetChBypass Mask.CY_SMARTIO_CHANNEL_NONE
      :: Event.Cy_SmartIO_Disable
      :: Event.Cy_SCB_UART_AbortTransmit Hw.CYBSP_DUT_UART_HW
      :: Event.Cy_SCB_UART_AbortReceive Hw.CYBSP_DUT_UART_HW
      :: Event.Cy_SCB_UART_StopRingBuffer Hw.CYBSP_DUT_UART_HW
      :: (run healthyEnv 0).log) <:+ (run healthyEnv 1).log ∧
    ¬ (∀ e before, (e :: before) <:+ (run healthyEnv 1).log →
        touchesDut e = true → settledSinceEnable before = true) := by
  refine ⟨by decide, fun h => ?_⟩
  have := h (Event.Cy_SCB_UART_ClearRxFifo Hw.CYBSP_DUT_UART_HW)
    (Event.Cy_SmartIO_Enable
      :: Event.Cy_SmartIO_SetChBypass Mask.CY_SMARTIO_CHANNEL_NONE
      :: Event.Cy_SmartIO_Disable
      :: Event.Cy_SCB_UART_AbortTransmit Hw.CYBSP_DUT_UART_HW
      :: Event.Cy_SCB_UART_AbortReceive Hw.CYBSP_DUT_UART_HW
      :: Event.Cy_SCB_UART_StopRingBuffer Hw.CYBSP_DUT_UART_HW
      :: (run healthyEnv 0).log) (by decide) rfl
  revert this
  decide

/-! ## Claims about halting -/

/-- C6. If `Cy_SmartIO_SetChBypass` reports an error when pass `k` switches the block into
loopback, the program stops in the `CY_ASSERT(0)` of line 166: the state never changes
again, the engine is not called in pass `k` or later, and the counter keeps its value. -/
theorem loopback_error_halts (env : Env) (k : Nat)
    (hrun : (run env k).status = Status.running)
    (herr : env.SetChBypass_loopback k ≠ env.CY_SMARTIO_SUCCESS) (m : Nat) :
    run env (k + 1 + m) = run env (k + 1) ∧
    (run env (k + 1 + m)).status = Status.asserted ∧
    (run env (k + 1 + m)).count = (run env k).count ∧
    engineCalls (run env (k + 1 + m)).log = engineCalls (run env k).log ∧
    printed (run env (k + 1 + m)).log = printed (run env k).log := by
  obtain ⟨hs, hc, hl⟩ := loopBody_fail_loopback env k (run env k) hrun herr
  have hs : (run env (k + 1)).status = Status.asserted := hs
  have hc : (run env (k + 1)).count = (run env k).count := hc
  have hl : (run env (k + 1)).log = (afterLoopbackSet (run env k)).log := hl
  have hfix : run env (k + 1 + m) = run env (k + 1) :=
    run_halted env (k + 1) (by rw [hs]; decide) m
  rw [hfix]
  refine ⟨rfl, hs, hc, ?_, ?_⟩
  · rw [hl, engineCalls_afterLoopbackSet]
  · rw [hl]; simp [printed_cons, putStringArg]

theorem loopback_error_halts_witness :
    run fabricErrorEnv (1 + 1 + 3) = run fabricErrorEnv (1 + 1) ∧
    (run fabricErrorEnv (1 + 1 + 3)).status = Status.asserted ∧
    (run fabricErrorEnv (1 + 1 + 3)).count = (run fabricErrorEnv 1).count ∧
    engineCalls (run fabricErrorEnv (1 + 1 + 3)).log = engineCalls (run fabricErrorEnv 1).log ∧
    printed (run fabricErrorEnv (1 + 1 + 3)).log = printed (run fabricErrorEnv 1).log :=
  loopback_error_halts fabricErrorEnv 1 (by decide) (by decide) 3

/-- C2. When pass `k` reaches the classification with a value of `ret` that is neither
`PASS_COMPLETE_STATUS` nor `PASS_STILL_TESTING_STATUS`, the program is halted for good: the
state after the pass never changes again (so the engine is not called any more, its only
call since the start of pass `k` being the one of pass `k`), the error text has been printed
exactly once, as the last text, with no progress line after it, and the counter keeps the
value it had before the pass. -/
theorem failed_verdict_halts (env : Env) (k : Nat)
    (hrun : (run env k).status = Status.running)
    (hreach : (loopTest env k (run env k)).status = Status.running)
    (hfail : env.PASS_COMPLETE_STATUS ≠ (loopTest env k (run env k)).ret ∧
      env.PASS_STILL_TESTING_STATUS ≠ (loopTest env k (run env k)).ret) (m : Nat) :
    run env (k + 1 + m) = run env (k + 1) ∧
    (run env (k + 1 + m)).status = Status.failed ∧
    (run env (k + 1 + m)).count = (run env k).count ∧
    engineCalls (run env (k + 1 + m)).log = engineCalls (run env k).log + 1 ∧
    printed (run env (k + 1 + m)).log = printed (run env k).log ++ [errorText] ∧
    (printed (run env (k + 1 + m)).log).count errorText = 1 := by
  obtain ⟨h1, h2⟩ := (loopTest_status env k _ hrun).mp hreach
  rw [loopTest_ok env k _ h1 h2, afterBypassFlush_ret] at hfail
  obtain ⟨hs, hc, hl⟩ := loopBody_failed env k (run env k) hrun h1 h2 hfail
  have hs : (run env (k + 1)).status = Status.failed := hs
  have hc : (run env (k + 1)).count = (run env k).count := hc
  have hl : (run env (k + 1)).log = Event.Cy_SCB_UART_PutString Hw.CYBSP_UART_HW errorText
      :: (afterBypassFlush env k (run env k)).log := hl
  have hfix : run env (k + 1 + m) = run env (k + 1) :=
    run_halted env (k + 1) (by rw [hs]; decide) m
  have hp : printed (run env (k + 1)).log = printed (run env k).log ++ [errorText] := by
    rw [hl, printed_cons, printed_afterBypassFlush]
    rfl
  rw [hfix]
  refine ⟨rfl, hs, hc, ?_, hp, ?_⟩
  · rw [hl, engineCalls_cons, engineCalls_afterBypassFlush]
    rfl
  · rw [hp, List.count_append, List.count_eq_zero_of_not_mem (run_no_error env k hrun)]
    simp

theorem failed_verdict_halts_witness :
    run failingEnv (2 + 1 + 4) = run failingEnv (2 + 1) ∧
    (run failingEnv (2 + 1 + 4)).status = Status.failed ∧
    (run failingEnv (2 + 1 + 4)).count = (run failingEnv 2).count ∧
    engineCalls (run failingEnv (2 + 1 + 4)).log = engineCalls (run failingEnv 2).log + 1 ∧
    printed (run failingEnv (2 + 1 + 4)).log = printed (run failingEnv 2).log ++ [errorText] ∧
    (printed (run failingEnv (2 + 1 + 4)).log).count errorText = 1 :=
  failed_verdict_halts failingEnv 2 (by decide) (by decide) (by decide) 4

/-- C7. From the start of `main` (`count = 0`), if the bring-up and the mode changes
succeed and the engine returns Complete or StillTesting, in any mix, in each of the first
`k` passes, then after `k` passes the program is running, the texts printed are the two
banner texts followed by exactly `k` progress lines, the `i`-th carrying
`i mod (MAX_INDEX_VAL + 1)`, the error text is not among them, and the counter is
`k mod (MAX_INDEX_VAL + 1)`. -/
theorem progress_lines (env : Env) (hinit : bringUpOk env) (k : Nat)
    (h : ∀ i, i < k → env.SetChBypass_loopback i = env.CY_SMARTIO_SUCCESS ∧
      env.SetChBypass_bypass i = env.CY_SMARTIO_SUCCESS ∧
      (env.SelfTest_UART_SCB i % 256 = env.PASS_COMPLETE_STATUS ∨
       env.SelfTest_UART_SCB i % 256 = env.PASS_STILL_TESTING_STATUS)) :
    (run env k).status = Status.running ∧
    printed (run env k).log =
      ["\x1b[2J\x1b[;H", "\r\nClass-B Safety Test: UART Loopback\r\n"] ++
        (List.range k).map (fun i => sprintf_count (i % (MAX_INDEX_VAL + 1))) ∧
    errorText ∉ printed (run env k).log ∧
    (run env k).count = k % (MAX_INDEX_VAL + 1) := by
  have h2 : ∀ i, i < k → env.SetChBypass_loopback i = env.CY_SMARTIO_SUCCESS ∧
      env.SetChBypass_bypass i = env.CY_SMARTIO_SUCCESS ∧ ¬ failingVerdict env i := by
    intro i hi
    obtain ⟨a, b, c⟩ := h i hi
    refine ⟨a, b, fun hf => ?_⟩
    rcases c with c | c
    · exact hf.1 c.symm
    · exact hf.2 c.symm
  obtain ⟨hs, hc, hp⟩ := run_healthy env hinit k h2
  exact ⟨hs, hp, run_no_error env k hs, hc⟩

theorem progress_lines_witness :
    ((run healthyEnv 5).status = Status.running ∧
     printed (run healthyEnv 5).log =
      ["\x1b[2J\x1b[;H", "\r\nClass-B Safety Test: UART Loopback\r\n"] ++
        (List.range 5).map (fun i => sprintf_count (i % (MAX_INDEX_VAL + 1))) ∧
     errorText ∉ printed (run healthyEnv 5).log ∧
     (run healthyEnv 5).count = 5 % (MAX_INDEX_VAL + 1)) ∧
    ((run stillTestingEnv 2).status = Status.running ∧
     printed (run stillTestingEnv 2).log =
      ["\x1b[2J\x1b[;H", "\r\nClass-B Safety Test: UART Loopback\r\n"] ++
        (List.range 2).map (fun i => sprintf_count (i % (MAX_INDEX_VAL + 1))) ∧
     errorText ∉ printed (run stillTestingEnv 2).log ∧
     (run stillTestingEnv 2).count = 2 % (MAX_INDEX_VAL + 1)) :=
  ⟨progress_lines healthyEnv (by decide) 5 (fun _ _ => ⟨rfl, rfl, Or.inl rfl⟩),
   progress_lines stillTestingEnv (by decide) 2 (fun i _ => ⟨rfl, rfl, by
     by_cases hi : i = 0
     · right; simp [stillTestingEnv, healthyEnv, hi]
     · left; simp [stillTestingEnv, healthyEnv, hi]⟩)⟩

end UartLoopback
